import Mathlib

/-!
# Verification of the product-backend CRUD service

A shallow embedding of `src/routes/products.ts` (an Express router over a
Prisma client) together with proofs about the five route handlers.

Modelling conventions:
* JavaScript numbers are modelled exactly: a finite number is a rational,
  and the special values `Infinity`, `-Infinity`, `NaN` are explicit
  constructors (`JSNum`).  Binary floating-point rounding is not modelled;
  every numeric literal appearing in the claims is exactly representable.
* Request-body fields are JavaScript values (`JSValue`): `undefined`,
  `null`, a string, or a number.  An absent body field is `undefined`.
* The Prisma client is modelled as a keyed store of `Product` rows plus a
  `connected` flag; when `connected = false` every store call throws,
  which is how an arbitrary store-layer failure (connectivity loss,
  constraint violation surfaced by the engine) enters the handlers'
  `catch` branches.  Each Prisma call returns `Option`: `none` is a thrown
  error, caught by the handler's `try/catch`.
* `findMany` arguments `skip`/`take` must be nonnegative integers,
  otherwise the call is modelled as failing (Prisma argument validation);
  no claim exercises Prisma's negative-`take` variant.
-/

namespace ProductBackend

/-- A JavaScript number: a finite rational, `Infinity`, `-Infinity`, or `NaN`. -/
inductive JSNum where
  | fin (q : ℚ)
  | posInf
  | negInf
  | nan
deriving DecidableEq, Repr

namespace JSNum

/-- `x - y` on JavaScript numbers. -/
def sub : JSNum → JSNum → JSNum
  | nan, _ => nan
  | _, nan => nan
  | fin a, fin b => fin (a - b)
  | posInf, posInf => nan
  | posInf, _ => posInf
  | negInf, negInf => nan
  | negInf, _ => negInf
  | fin _, posInf => negInf
  | fin _, negInf => posInf

/-- `x * y` on JavaScript numbers. -/
def mul : JSNum → JSNum → JSNum
  | nan, _ => nan
  | _, nan => nan
  | fin a, fin b => fin (a * b)
  | posInf, posInf => posInf
  | posInf, negInf => negInf
  | negInf, posInf => negInf
  | negInf, negInf => posInf
  | posInf, fin b => if b = 0 then nan else if 0 < b then posInf else negInf
  | negInf, fin b => if b = 0 then nan else if 0 < b then negInf else posInf
  | fin a, posInf => if a = 0 then nan else if 0 < a then posInf else negInf
  | fin a, negInf => if a = 0 then nan else if 0 < a then negInf else posInf

/-- `x / y` on JavaScript numbers; in particular division by zero yields
`Infinity`, `-Infinity` or `NaN`, never a finite value. -/
def div : JSNum → JSNum → JSNum
  | nan, _ => nan
  | _, nan => nan
  | fin a, fin b =>
      if b = 0 then (if a = 0 then nan else if 0 < a then posInf else negInf)
      else fin (a / b)
  | fin _, posInf => fin 0
  | fin _, negInf => fin 0
  | posInf, fin b => if 0 ≤ b then posInf else negInf
  | negInf, fin b => if 0 ≤ b then negInf else posInf
  | posInf, _ => nan
  | negInf, _ => nan

/-- `Math.ceil`: identity on the non-finite values. -/
def ceil : JSNum → JSNum
  | fin q => fin ⌈q⌉
  | posInf => posInf
  | negInf => negInf
  | nan => nan

/-- Whether the number is finite (neither an infinity nor `NaN`). -/
def isFinite : JSNum → Bool
  | fin _ => true
  | _ => false

/-- The value as a nonnegative integer, when it is one. -/
def toNat? : JSNum → Option ℕ
  | fin q => if q.den = 1 ∧ 0 ≤ q.num then some q.num.toNat else none
  | _ => none

/-- The value as an integer, when it is one. -/
def toInt? : JSNum → Option ℤ
  | fin q => if q.den = 1 then some q.num else none
  | _ => none

end JSNum

/-- A JavaScript value as it can appear in a request body field:
`undefined` (also used for an absent field), `null`, a string or a number. -/
inductive JSValue where
  | undef
  | null
  | str (s : String)
  | num (n : JSNum)
deriving DecidableEq, Repr

/-- JavaScript truthiness: `undefined`, `null`, the empty string, `0` and
`NaN` are falsy; every other value considered here is truthy. -/
def truthy : JSValue → Bool
  | .undef => false
  | .null => false
  | .str s => !s.isEmpty
  | .num (.fin q) => decide (q ≠ 0)
  | .num .nan => false
  | .num _ => true

/-- The numeric value of a run of decimal digits. -/
def digitsToNat (l : List Char) : ℕ :=
  l.foldl (fun a c => a * 10 + (c.toNat - 48)) 0

/-- `parseInt(s)` in base 10: skip leading whitespace, optional sign, then the
longest prefix of decimal digits; `NaN` if that prefix is empty. -/
def parseIntString (s : String) : JSNum :=
  let cs := s.toList.dropWhile (·.isWhitespace)
  let sgn : ℤ := match cs with
    | '-' :: _ => -1
    | _ => 1
  let cs2 := match cs with
    | '-' :: r => r
    | '+' :: r => r
    | _ => cs
  let ds := cs2.takeWhile Char.isDigit
  if ds.isEmpty then .nan else .fin ((sgn * (digitsToNat ds : ℤ) : ℤ) : ℚ)

/-- `parseFloat(s)`: optional sign, integer digits, optional fraction digits
(the longest valid prefix); `NaN` when no digit is found.  Exponents and the
literal `Infinity` are not exercised by any claim and parse to `NaN` here. -/
def parseFloatString (s : String) : JSNum :=
  let cs := s.toList.dropWhile (·.isWhitespace)
  let sgn : ℚ := match cs with
    | '-' :: _ => -1
    | _ => 1
  let cs2 := match cs with
    | '-' :: r => r
    | '+' :: r => r
    | _ => cs
  let intDs := cs2.takeWhile Char.isDigit
  let rest := cs2.dropWhile Char.isDigit
  let fracDs := match rest with
    | '.' :: r => r.takeWhile Char.isDigit
    | _ => []
  if intDs.isEmpty ∧ fracDs.isEmpty then .nan
  else .fin (sgn * ((digitsToNat intDs : ℚ) + (digitsToNat fracDs : ℚ) / (10 ^ fracDs.length)))

/-- `parseFloat(v)` on a JavaScript value: a number is returned unchanged
(string round-trip), a string is parsed, `undefined` and `null` stringify to
non-numeric text and give `NaN`. -/
def jsParseFloat : JSValue → JSNum
  | .num n => n
  | .str s => parseFloatString s
  | .undef => .nan
  | .null => .nan

/-- `Number(s)` conversion of a string: the trimmed string must be entirely a
decimal numeral (empty means `0`); otherwise `NaN`.  Hex/exponent forms are
not exercised by any claim and give `NaN` here. -/
def jsNumberOfString (s : String) : JSNum :=
  let cs := s.toList.dropWhile (·.isWhitespace)
  let cs := cs.reverse.dropWhile (·.isWhitespace) |>.reverse
  if cs.isEmpty then .fin 0
  else
    let sgn : ℚ := match cs with
      | '-' :: _ => -1
      | _ => 1
    let cs2 := match cs with
      | '-' :: r => r
      | '+' :: r => r
      | _ => cs
    let intDs := cs2.takeWhile Char.isDigit
    let rest := cs2.dropWhile Char.isDigit
    let ok := match rest with
      | [] => !intDs.isEmpty
      | '.' :: r => (!intDs.isEmpty ∨ !r.isEmpty) ∧ r.all Char.isDigit
      | _ => false
    let fracDs := match rest with
      | '.' :: r => r
      | _ => []
    if ok then .fin (sgn * ((digitsToNat intDs : ℚ) + (digitsToNat fracDs : ℚ) / (10 ^ fracDs.length)))
    else .nan

/-- A row of the `Product` table.  `id` is assigned by the store
(autoincrement); `price` is the stored JavaScript number. -/
structure Product where
  id : ℕ
  name : String
  category : String
  price : JSNum
deriving DecidableEq, Repr

/-- The Prisma-backed store: the `Product` rows, the next autoincrement id,
and a `connected` flag — when false every store call throws. -/
structure Store where
  products : List Product
  nextId : ℕ
  connected : Bool
deriving DecidableEq, Repr

/-- Look up a row by primary key. -/
def findById (l : List Product) (k : ℤ) : Option Product :=
  l.find? (fun q => (q.id : ℤ) == k)

/-- `prisma.product.findMany({skip, take})`: `none` models a thrown error
(disconnected client, or invalid `skip`/`take` argument). -/
def prismaFindMany (s : Store) (skip take : JSNum) : Option (List Product) :=
  if s.connected then
    match skip.toNat?, take.toNat? with
    | some sk, some tk => some ((s.products.drop sk).take tk)
    | _, _ => none
  else none

/-- `prisma.product.count()`. -/
def prismaCount (s : Store) : Option ℕ :=
  if s.connected then some s.products.length else none

/-- `prisma.product.findUnique({where: {id}})`: `none` is a thrown error,
`some r` the query result (`r = none` when no row matches). -/
def prismaFindUnique (s : Store) (idn : JSNum) : Option (Option Product) :=
  if s.connected then
    match idn.toInt? with
    | some k => some (findById s.products k)
    | none => none
  else none

/-- `prisma.product.create({data})`: the `name`/`category` columns require
strings (anything else is a client validation error, thrown); the store
assigns `nextId` as the new row's id. -/
def prismaCreate (s : Store) (nameV catV : JSValue) (priceN : JSNum) :
    Option (Product × Store) :=
  if s.connected then
    match nameV, catV with
    | .str n, .str c =>
        let p : Product := ⟨s.nextId, n, c, priceN⟩
        some (p, ⟨s.products ++ [p], s.nextId + 1, s.connected⟩)
    | _, _ => none
  else none

/-- The `data` object built by the PATCH handler: a field that is
`undefined` in JavaScript is ignored by Prisma, modelled as `none`. -/
structure UpdateData where
  name : Option JSValue
  category : Option JSValue
  price : Option JSNum
deriving DecidableEq, Repr

/-- Apply an update `data` object to a row: absent (`none`) fields keep the
old column value; the `name`/`category` columns require strings. -/
def applyUpdate (p : Product) (d : UpdateData) : Option Product := do
  let n ← match d.name with
    | none => some p.name
    | some (.str s) => some s
    | some _ => none
  let c ← match d.category with
    | none => some p.category
    | some (.str s) => some s
    | some _ => none
  let pr := match d.price with
    | none => p.price
    | some v => v
  some ⟨p.id, n, c, pr⟩

/-- `prisma.product.update({where: {id}, data})`: throws (`none`) when the
client is disconnected, the id is not an integer, no row matches, or a
column value has the wrong type. -/
def prismaUpdate (s : Store) (idn : JSNum) (d : UpdateData) :
    Option (Product × Store) :=
  if s.connected then
    match idn.toInt? with
    | some k =>
        match findById s.products k with
        | some p =>
            match applyUpdate p d with
            | some p' =>
                some (p', ⟨s.products.map (fun q => if (q.id : ℤ) == k then p' else q),
                           s.nextId, s.connected⟩)
            | none => none
        | none => none
    | none => none
  else none

/-- `prisma.product.delete({where: {id}})`: throws (`none`) when the client
is disconnected, the id is not an integer, or no row matches; on success the
matching row is removed and returned. -/
def prismaDelete (s : Store) (idn : JSNum) : Option (Product × Store) :=
  if s.connected then
    match idn.toInt? with
    | some k =>
        match findById s.products k with
        | some p =>
            some (p, ⟨s.products.filter (fun q => !((q.id : ℤ) == k)),
                      s.nextId, s.connected⟩)
        | none => none
    | none => none
  else none

/-- A response body: empty (`res.end()`), a `{error: msg}` object, a single
product, or the pagination envelope `{count, total_pages, page_size, page,
results}`. -/
inductive Body where
  | empty
  | errorMsg (msg : String)
  | product (p : Product)
  | envelope (count : ℕ) (total_pages page_size page : JSNum) (results : List Product)
deriving DecidableEq, Repr

/-- The `total_pages` field of an envelope body, when the body is one. -/
def Body.totalPages? : Body → Option JSNum
  | .envelope _ tp _ _ _ => some tp
  | _ => none

/-- An HTTP response: status code and body. -/
structure HttpResponse where
  status : ℕ
  body : Body
deriving DecidableEq, Repr

/-- A request body for POST/PATCH: the three recognised fields, each a
JavaScript value (`undefined` when absent). -/
structure ReqBody where
  name : JSValue
  category : JSValue
  price : JSValue
deriving DecidableEq, Repr

/-- `GET /` — the list handler.  Query parameters arrive as optional
strings, defaulting to `'1'` and `'10'`; `skip = (page - 1) * page_size`;
`total_pages = Math.ceil(count / page_size)`.  A thrown store call is
caught and answered with 500. -/
def listHandler (s : Store) (page page_size : Option String) :
    HttpResponse × Store :=
  let pageNumber := parseIntString (page.getD "1")
  let pageSizeNumber := parseIntString (page_size.getD "10")
  let skip := (pageNumber.sub (.fin 1)).mul pageSizeNumber
  match prismaFindMany s skip pageSizeNumber with
  | none => (⟨500, .errorMsg "Não foi possível listar os produtos"⟩, s)
  | some products =>
      match prismaCount s with
      | none => (⟨500, .errorMsg "Não foi possível listar os produtos"⟩, s)
      | some count =>
          let totalPages := ((JSNum.fin count).div pageSizeNumber).ceil
          (⟨200, .envelope count totalPages pageSizeNumber pageNumber products⟩, s)

/-- `GET /:id` — responds 201 with the row when found (as the source does),
404 when no row matches, 500 when the store call throws. -/
def getByIdHandler (s : Store) (id : String) : HttpResponse × Store :=
  match prismaFindUnique s (jsNumberOfString id) with
  | none => (⟨500, .errorMsg "Erro ao buscar o produto"⟩, s)
  | some none => (⟨404, .errorMsg "Produto não encontrado"⟩, s)
  | some (some p) => (⟨201, .product p⟩, s)

/-- `POST /` — rejects with 400 on the first falsy field in the order
`name`, `category`, `price`; otherwise creates the row with
`price: parseFloat(price)` and returns it (200); a thrown store call is
caught and answered with 400. -/
def createHandler (s : Store) (b : ReqBody) : HttpResponse × Store :=
  if !truthy b.name then
    (⟨400, .errorMsg "O campo [name] é obrigatório"⟩, s)
  else if !truthy b.category then
    (⟨400, .errorMsg "O campo [category] é obrigatório"⟩, s)
  else if !truthy b.price then
    (⟨400, .errorMsg "O campo [price] é obrigatório"⟩, s)
  else
    match prismaCreate s b.name b.category (jsParseFloat b.price) with
    | none => (⟨400, .errorMsg "Não foi possível criar o produto"⟩, s)
    | some (p, s') => (⟨200, .product p⟩, s')

/-- The `data` object the PATCH handler passes to `prisma.product.update`:
`name` and `category` are forwarded as given (absent = `undefined`, ignored
by Prisma), while `price` is always `parseFloat(price)` — a number even when
the body omits `price` (then `parseFloat(undefined) = NaN`). -/
def patchData (b : ReqBody) : UpdateData where
  name := match b.name with
    | .undef => none
    | v => some v
  category := match b.category with
    | .undef => none
    | v => some v
  price := some (jsParseFloat b.price)

/-- `PATCH /:id` — no field validation; delegates to `update` with
`patchData`; a thrown store call is caught and answered with 400.  (The
source's `if (product)` check after a successful `update` is always true —
the resolved row object is truthy — so its else branch is dead.) -/
def patchHandler (s : Store) (id : String) (b : ReqBody) :
    HttpResponse × Store :=
  match prismaUpdate s (jsNumberOfString id) (patchData b) with
  | none => (⟨400, .errorMsg "Não foi possível atualizar o produto"⟩, s)
  | some (p, s') => (⟨200, .product p⟩, s')

/-- `DELETE /:id` — delegates to `delete`; on success responds 204 with an
empty body (the source's `if (product)` is again always true on success); a
thrown store call is caught and answered with 400. -/
def deleteHandler (s : Store) (id : String) : HttpResponse × Store :=
  match prismaDelete s (jsNumberOfString id) with
  | none => (⟨400, .errorMsg "Não foi possível deletar o produto"⟩, s)
  | some (_, s') => (⟨204, .empty⟩, s')

/-- A store holding no rows, with the autoincrement counter at 1. -/
def emptyStore : Store := ⟨[], 1, true⟩

/-- A sample row, as created by the store. -/
def pizzaRow : Product := ⟨1, "Pizza", "Food", .fin 30⟩

/-- A store holding exactly `pizzaRow`. -/
def oneRowStore : Store := ⟨[pizzaRow], 2, true⟩

/-- A store whose client connection is down: every call throws. -/
def downStore : Store := ⟨[pizzaRow], 2, false⟩

/- ## Helper lemmas -/

theorem JSNum.toNat?_natCast (n : ℕ) : (JSNum.fin (n : ℚ)).toNat? = some n := by
  simp [JSNum.toNat?]

theorem JSNum.toInt?_intCast (k : ℤ) : (JSNum.fin (k : ℚ)).toInt? = some k := by
  simp [JSNum.toInt?]

theorem findById_filter_self (l : List Product) (k : ℤ) :
    findById (l.filter (fun q => !((q.id : ℤ) == k))) k = none := by
  rw [findById, List.find?_eq_none]
  intro x hx
  rcases List.mem_filter.mp hx with ⟨-, h2⟩
  simpa using h2

/- ## Claims -/

/-- C5: listing with the default parameters `page=1`, `page_size=10` against
an empty store returns exactly the envelope
`{count: 0, total_pages: 0, page_size: 10, page: 1, results: []}`
(and leaves the store unchanged). -/
theorem list_empty_store_defaults :
    listHandler emptyStore none none =
      (⟨200, .envelope 0 (.fin 0) (.fin 10) (.fin 1) []⟩, emptyStore) := by
  simp +decide [listHandler, parseIntString, digitsToNat, prismaFindMany, prismaCount,
    emptyStore, JSNum.sub, JSNum.mul, JSNum.div, JSNum.ceil, JSNum.toNat?]

/-- C10: a create request in which all three fields are present but `price`
is the number `0` is rejected with 400 and the missing-`price` message,
because field presence is tested by JavaScript truthiness and `0` is falsy. -/
theorem create_rejects_zero_price (s : Store) (n c : JSValue)
    (hn : truthy n = true) (hc : truthy c = true) :
    createHandler s ⟨n, c, .num (.fin 0)⟩ =
      (⟨400, .errorMsg "O campo [price] é obrigatório"⟩, s) := by
  have hp : truthy (.num (.fin 0)) = false := by simp [truthy]
  simp [createHandler, hn, hc, hp]

/-- Witness for C10 at a concrete request: name and category are non-empty
strings, price is the number `0`. -/
theorem create_rejects_zero_price_witness :
    createHandler oneRowStore ⟨.str "Lasanha", .str "Massas", .num (.fin 0)⟩ =
      (⟨400, .errorMsg "O campo [price] é obrigatório"⟩, oneRowStore) :=
  create_rejects_zero_price oneRowStore (.str "Lasanha") (.str "Massas")
    (by decide) (by decide)

/-- C2 counterexample: in this create request all three fields are present
(`price` is the number `0`, a well-defined non-negative price), yet the
handler rejects with the missing-`price` error instead of delegating
creation — refuting the claim that presence of all three fields suffices. -/
theorem create_present_but_falsy_price_rejected :
    createHandler emptyStore ⟨.str "Pizza", .str "Food", .num (.fin 0)⟩ =
      (⟨400, .errorMsg "O campo [price] é obrigatório"⟩, emptyStore) := by
  simp +decide [createHandler, truthy]

/-- C9: a list request with `page_size = 0` is not rejected: the handler
answers 200, the total-pages computation divides the count by zero, and the
resulting `total_pages` (`NaN` on an empty store, `Infinity` otherwise) is
never a finite page count. -/
theorem list_page_size_zero_unguarded (s : Store) (hconn : s.connected = true) :
    (listHandler s none (some "0")).1 =
      ⟨200, .envelope s.products.length
        (((JSNum.fin (s.products.length : ℚ)).div (.fin 0)).ceil)
        (.fin 0) (.fin 1) []⟩
    ∧ (((JSNum.fin (s.products.length : ℚ)).div (.fin 0)).ceil).isFinite = false := by
  constructor
  · simp +decide [listHandler, parseIntString, digitsToNat, prismaFindMany, prismaCount,
      hconn, JSNum.sub, JSNum.mul, JSNum.toNat?]
  · rcases Nat.eq_zero_or_pos s.products.length with h | h
    · simp [h, JSNum.div, JSNum.ceil, JSNum.isFinite]
    · have h0 : ((s.products.length : ℚ)) ≠ 0 := by
        exact_mod_cast Nat.pos_iff_ne_zero.mp h
      have h1 : (0 : ℚ) < (s.products.length : ℚ) := by exact_mod_cast h
      simp [JSNum.div, h0, h1, JSNum.ceil, JSNum.isFinite]

/-- Witness for C9 on a one-row store: the response is 200 and
`total_pages = Math.ceil(1 / 0) = Infinity`, not a finite count. -/
theorem list_page_size_zero_unguarded_witness :
    (listHandler oneRowStore none (some "0")).1 =
      ⟨200, .envelope oneRowStore.products.length
        (((JSNum.fin (oneRowStore.products.length : ℚ)).div (.fin 0)).ceil)
        (.fin 0) (.fin 1) []⟩
    ∧ (((JSNum.fin (oneRowStore.products.length : ℚ)).div (.fin 0)).ceil).isFinite = false :=
  list_page_size_zero_unguarded oneRowStore rfl

/-- C2 (amended): create validation rejects on the first *falsy* field in
the fixed order `name`, `category`, `price` with a 400 naming that field;
when all three fields are truthy (for `name`/`category`: non-empty strings),
creation is delegated to the store with `parseFloat(price)` and the response
is the new record carrying the store-assigned id `nextId`. -/
theorem create_first_falsy_field_validation (s : Store) (b : ReqBody)
    (hconn : s.connected = true) :
    (truthy b.name = false →
      createHandler s b = (⟨400, .errorMsg "O campo [name] é obrigatório"⟩, s))
    ∧ (truthy b.name = true → truthy b.category = false →
      createHandler s b = (⟨400, .errorMsg "O campo [category] é obrigatório"⟩, s))
    ∧ (truthy b.name = true → truthy b.category = true → truthy b.price = false →
      createHandler s b = (⟨400, .errorMsg "O campo [price] é obrigatório"⟩, s))
    ∧ (∀ n c, b.name = .str n → b.category = .str c →
        truthy b.name = true → truthy b.category = true → truthy b.price = true →
        createHandler s b =
          (⟨200, .product ⟨s.nextId, n, c, jsParseFloat b.price⟩⟩,
           ⟨s.products ++ [⟨s.nextId, n, c, jsParseFloat b.price⟩], s.nextId + 1, true⟩)) := by
  refine ⟨?_, ?_, ?_, ?_⟩
  · intro h1
    simp [createHandler, h1]
  · intro h1 h2
    simp [createHandler, h1, h2]
  · intro h1 h2 h3
    simp [createHandler, h1, h2, h3]
  · intro n c hn hc h1 h2 h3
    rw [hn] at h1
    rw [hc] at h2
    simp [createHandler, hn, hc, h1, h2, h3, prismaCreate, hconn]

/-- Witness for C2 (amended): creating `{name: "Pizza", category: "Food",
price: "29.99"}` on the empty store returns the new record with the assigned
id 1, and `parseFloat("29.99")` is exactly `29.99 = 2999/100`. -/
theorem create_first_falsy_field_validation_witness :
    createHandler emptyStore ⟨.str "Pizza", .str "Food", .str "29.99"⟩ =
      (⟨200, .product ⟨emptyStore.nextId, "Pizza", "Food", jsParseFloat (.str "29.99")⟩⟩,
       ⟨emptyStore.products ++ [⟨emptyStore.nextId, "Pizza", "Food", jsParseFloat (.str "29.99")⟩],
        emptyStore.nextId + 1, true⟩)
    ∧ jsParseFloat (.str "29.99") = .fin (2999 / 100) := by
  constructor
  · exact (create_first_falsy_field_validation emptyStore
      ⟨.str "Pizza", .str "Food", .str "29.99"⟩ rfl).2.2.2 "Pizza" "Food" rfl rfl
      (by decide) (by decide) (by decide)
  · simp +decide [jsParseFloat, parseFloatString, digitsToNat]
    norm_num

/-- C3 counterexample: in a partial-update request whose body omits `price`
entirely, the `data` object passed to the store's update operation still
contains a price value — `parseFloat(undefined) = NaN` — refuting the claim
that a price value is submitted exactly when `price` is given. -/
theorem patch_omitted_price_still_submitted :
    (patchData ⟨.undef, .undef, .undef⟩).price = some JSNum.nan := rfl

/-- C3 (amended): the `data` passed to the store's update-by-id operation
always contains `price = parseFloat(body.price)` — `NaN` when the body omits
`price` — while `name`/`category` are included exactly when given; and no
presence validation happens before the store call: the handler answers 400
exactly when the store call itself fails. -/
theorem patch_data_contract (b : ReqBody) (s : Store) (idStr : String) :
    (patchData b).price = some (jsParseFloat b.price)
    ∧ ((patchData b).name = none ↔ b.name = .undef)
    ∧ ((patchData b).category = none ↔ b.category = .undef)
    ∧ ((patchHandler s idStr b).1.status = 400 ↔
        prismaUpdate s (jsNumberOfString idStr) (patchData b) = none) := by
  refine ⟨rfl, ?_, ?_, ?_⟩
  · cases hb : b.name <;> simp [patchData, hb]
  · cases hb : b.category <;> simp [patchData, hb]
  · cases h : prismaUpdate s (jsNumberOfString idStr) (patchData b) with
    | none => simp [patchHandler, h]
    | some ps => simp [patchHandler, h]

/-- C4: the code contradicts its own swagger documentation (and the spec):
a successful get-by-id responds with status 201, not 200.  The not-found
half of the claim does hold (404), and neither outcome mutates the store. -/
theorem get_by_id_responds_201 :
    getByIdHandler oneRowStore "1" = (⟨201, .product pizzaRow⟩, oneRowStore)
    ∧ (getByIdHandler oneRowStore "7").1 = ⟨404, .errorMsg "Produto não encontrado"⟩
    ∧ (getByIdHandler oneRowStore "7").2 = oneRowStore := by
  have h1 : jsNumberOfString "1" = .fin 1 := by
    simp +decide [jsNumberOfString, digitsToNat]
  have h7 : jsNumberOfString "7" = .fin 7 := by
    simp +decide [jsNumberOfString, digitsToNat]
  refine ⟨?_, ?_, ?_⟩ <;>
    simp +decide [getByIdHandler, prismaFindUnique, h1, h7, JSNum.toInt?,
      findById, oneRowStore, pizzaRow, List.find?]

/-- C6: deleting an existing row answers 204 with an empty body and removes
the row; thereafter a get-by-id for the same id answers 404 and any update
or delete for it answers 400 — the id is unfetchable. -/
theorem delete_then_not_found (s : Store) (idStr : String) (k : ℤ) (p : Product)
    (hconn : s.connected = true)
    (hid : (jsNumberOfString idStr).toInt? = some k)
    (hfind : findById s.products k = some p) :
    deleteHandler s idStr =
      (⟨204, .empty⟩,
       ⟨s.products.filter (fun q => !((q.id : ℤ) == k)), s.nextId, s.connected⟩)
    ∧ (getByIdHandler
        ⟨s.products.filter (fun q => !((q.id : ℤ) == k)), s.nextId, s.connected⟩ idStr).1 =
        ⟨404, .errorMsg "Produto não encontrado"⟩
    ∧ (∀ b, (patchHandler
        ⟨s.products.filter (fun q => !((q.id : ℤ) == k)), s.nextId, s.connected⟩ idStr b).1 =
        ⟨400, .errorMsg "Não foi possível atualizar o produto"⟩)
    ∧ (deleteHandler
        ⟨s.products.filter (fun q => !((q.id : ℤ) == k)), s.nextId, s.connected⟩ idStr).1 =
        ⟨400, .errorMsg "Não foi possível deletar o produto"⟩ := by
  have hfn := findById_filter_self s.products k
  refine ⟨?_, ?_, ?_, ?_⟩
  · simp [deleteHandler, prismaDelete, hconn, hid, hfind]
  · simp [getByIdHandler, prismaFindUnique, hconn, hid, hfn]
  · intro b
    simp [patchHandler, prismaUpdate, hconn, hid, hfn]
  · simp [deleteHandler, prismaDelete, hconn, hid, hfn]

/-- Witness for C6: deleting id 1 from the one-row store answers 204 and
empties it; the subsequent get answers 404, update and delete answer 400. -/
theorem delete_then_not_found_witness :
    deleteHandler oneRowStore "1" =
      (⟨204, .empty⟩,
       ⟨oneRowStore.products.filter (fun q => !((q.id : ℤ) == 1)),
        oneRowStore.nextId, oneRowStore.connected⟩)
    ∧ (getByIdHandler
        ⟨oneRowStore.products.filter (fun q => !((q.id : ℤ) == 1)),
         oneRowStore.nextId, oneRowStore.connected⟩ "1").1 =
        ⟨404, .errorMsg "Produto não encontrado"⟩
    ∧ (∀ b, (patchHandler
        ⟨oneRowStore.products.filter (fun q => !((q.id : ℤ) == 1)),
         oneRowStore.nextId, oneRowStore.connected⟩ "1" b).1 =
        ⟨400, .errorMsg "Não foi possível atualizar o produto"⟩)
    ∧ (deleteHandler
        ⟨oneRowStore.products.filter (fun q => !((q.id : ℤ) == 1)),
         oneRowStore.nextId, oneRowStore.connected⟩ "1").1 =
        ⟨400, .errorMsg "Não foi possível deletar o produto"⟩ :=
  delete_then_not_found oneRowStore "1" 1 pizzaRow rfl
    (by simp +decide [jsNumberOfString, digitsToNat, JSNum.toInt?]) (by rfl)

/-- C7: an update whose body supplies only `price` leaves the row's `name`,
`category` and `id` unchanged — both in the returned record and in the
store, where only the addressed row is replaced. -/
theorem patch_price_only_preserves_fields (s : Store) (idStr : String)
    (k : ℤ) (p : Product) (v : JSValue)
    (hconn : s.connected = true)
    (hid : (jsNumberOfString idStr).toInt? = some k)
    (hfind : findById s.products k = some p)
    (_hv : v ≠ .undef) :
    patchHandler s idStr ⟨.undef, .undef, v⟩ =
      (⟨200, .product ⟨p.id, p.name, p.category, jsParseFloat v⟩⟩,
       ⟨s.products.map (fun q =>
          if (q.id : ℤ) == k then ⟨p.id, p.name, p.category, jsParseFloat v⟩ else q),
        s.nextId, s.connected⟩) := by
  have hdata : patchData ⟨.undef, .undef, v⟩ = ⟨none, none, some (jsParseFloat v)⟩ := rfl
  have happ : applyUpdate p ⟨none, none, some (jsParseFloat v)⟩ =
      some ⟨p.id, p.name, p.category, jsParseFloat v⟩ := rfl
  simp [patchHandler, prismaUpdate, hconn, hid, hfind, hdata, happ]

/-- Witness for C7: updating only the price of the row with id 1 keeps its
name `"Pizza"`, category `"Food"` and id. -/
theorem patch_price_only_preserves_fields_witness :
    patchHandler oneRowStore "1" ⟨.undef, .undef, .num (.fin 5)⟩ =
      (⟨200, .product ⟨pizzaRow.id, pizzaRow.name, pizzaRow.category, jsParseFloat (.num (.fin 5))⟩⟩,
       ⟨oneRowStore.products.map (fun q =>
          if (q.id : ℤ) == 1 then
            ⟨pizzaRow.id, pizzaRow.name, pizzaRow.category, jsParseFloat (.num (.fin 5))⟩
          else q),
        oneRowStore.nextId, oneRowStore.connected⟩) :=
  patch_price_only_preserves_fields oneRowStore "1" 1 pizzaRow (.num (.fin 5)) rfl
    (by simp +decide [jsNumberOfString, digitsToNat, JSNum.toInt?]) (by rfl) (by decide)

/-- C8: when the store layer fails (modelled by a disconnected client: every
store call throws), each of the five handlers intercepts the failure and
answers with a JSON body holding a single generic `error` message — 500 on
the two read paths, 400 on the three write paths (create only once its field
validation has passed, since a validation 400 is not a store failure); the
store is untouched and the underlying cause is not exposed. -/
theorem store_failures_intercepted (s : Store) (hdown : s.connected = false)
    (page? size? : Option String) (idStr : String) (b : ReqBody) :
    listHandler s page? size? =
      (⟨500, .errorMsg "Não foi possível listar os produtos"⟩, s)
    ∧ getByIdHandler s idStr = (⟨500, .errorMsg "Erro ao buscar o produto"⟩, s)
    ∧ (truthy b.name = true → truthy b.category = true → truthy b.price = true →
        createHandler s b = (⟨400, .errorMsg "Não foi possível criar o produto"⟩, s))
    ∧ patchHandler s idStr b =
      (⟨400, .errorMsg "Não foi possível atualizar o produto"⟩, s)
    ∧ deleteHandler s idStr =
      (⟨400, .errorMsg "Não foi possível deletar o produto"⟩, s) := by
  refine ⟨?_, ?_, ?_, ?_, ?_⟩
  · simp [listHandler, prismaFindMany, hdown]
  · simp [getByIdHandler, prismaFindUnique, hdown]
  · intro h1 h2 h3
    simp [createHandler, h1, h2, h3, prismaCreate, hdown]
  · simp [patchHandler, prismaUpdate, hdown]
  · simp [deleteHandler, prismaDelete, hdown]

/-- Witness for C8 on a concrete disconnected store and concrete requests:
all five handlers answer the generic error envelope. -/
theorem store_failures_intercepted_witness :
    listHandler downStore (some "1") (some "10") =
      (⟨500, .errorMsg "Não foi possível listar os produtos"⟩, downStore)
    ∧ getByIdHandler downStore "1" = (⟨500, .errorMsg "Erro ao buscar o produto"⟩, downStore)
    ∧ createHandler downStore ⟨.str "Pizza", .str "Food", .str "29.99"⟩ =
      (⟨400, .errorMsg "Não foi possível criar o produto"⟩, downStore)
    ∧ patchHandler downStore "1" ⟨.str "Pizza", .str "Food", .str "29.99"⟩ =
      (⟨400, .errorMsg "Não foi possível atualizar o produto"⟩, downStore)
    ∧ deleteHandler downStore "1" =
      (⟨400, .errorMsg "Não foi possível deletar o produto"⟩, downStore) := by
  have h := store_failures_intercepted downStore rfl (some "1") (some "10") "1"
    ⟨.str "Pizza", .str "Food", .str "29.99"⟩
  exact ⟨h.1, h.2.1, h.2.2.1 (by decide) (by decide) (by decide), h.2.2.2.1, h.2.2.2.2⟩

/-- C1: for a list request whose `page` and `page_size` parameters (strings,
defaulting to `'1'` and `'10'` when absent) parse to integers `pn ≥ 1` and
`psn ≥ 1`, the handler requests the slice of the store starting at offset
`skip = (pn - 1) * psn` of at most `psn` records, and answers 200 with the
envelope `{count, total_pages, page_size, page, results}` where `count` is
the store's record count, `total_pages = ⌈count / psn⌉`, and `results` has
length at most `psn`. -/
theorem list_pagination_contract (s : Store) (page? size? : Option String)
    (pn psn : ℕ) (hconn : s.connected = true)
    (hp : parseIntString (page?.getD "1") = .fin (pn : ℚ))
    (hps : parseIntString (size?.getD "10") = .fin (psn : ℚ))
    (hp1 : 1 ≤ pn) (hps1 : 1 ≤ psn) :
    (listHandler s page? size?).1 =
      ⟨200, .envelope s.products.length
        (.fin ⌈(s.products.length : ℚ) / (psn : ℚ)⌉)
        (.fin (psn : ℚ)) (.fin (pn : ℚ))
        ((s.products.drop ((pn - 1) * psn)).take psn)⟩
    ∧ ((s.products.drop ((pn - 1) * psn)).take psn).length ≤ psn := by
  have hskip : ((JSNum.fin (pn : ℚ)).sub (.fin 1)).mul (.fin (psn : ℚ)) =
      .fin ((((pn - 1) * psn : ℕ) : ℚ)) := by
    simp only [JSNum.sub, JSNum.mul]
    rw [Nat.cast_mul, Nat.cast_sub hp1]
    norm_num
  have hfm : prismaFindMany s (.fin ((((pn - 1) * psn : ℕ) : ℚ))) (.fin (psn : ℚ)) =
      some ((s.products.drop ((pn - 1) * psn)).take psn) := by
    unfold prismaFindMany
    rw [hconn, JSNum.toNat?_natCast, JSNum.toNat?_natCast]
    rfl
  have hcnt : prismaCount s = some s.products.length := by
    unfold prismaCount
    rw [hconn]
    rfl
  have hdiv : (JSNum.fin (s.products.length : ℚ)).div (.fin (psn : ℚ)) =
      .fin ((s.products.length : ℚ) / (psn : ℚ)) := by
    have hne : ((psn : ℚ)) ≠ 0 := by
      exact_mod_cast Nat.pos_iff_ne_zero.mp hps1
    simp [JSNum.div, hne]
  refine ⟨?_, ?_⟩
  · show (listHandler s page? size?).1 = _
    unfold listHandler
    rw [hp, hps]
    dsimp only
    rw [hskip, hfm, hcnt]
    dsimp only
    rw [hdiv]
    rfl
  · rw [List.length_take]
    exact min_le_left _ _

/-- Witness for C1: listing the one-row store with `page=1`, `page_size=10`
gives `count = 1`, `total_pages = ⌈1/10⌉`, and the single row. -/
theorem list_pagination_contract_witness :
    (listHandler oneRowStore (some "1") (some "10")).1 =
      ⟨200, .envelope oneRowStore.products.length
        (.fin ⌈(oneRowStore.products.length : ℚ) / ((10 : ℕ) : ℚ)⌉)
        (.fin ((10 : ℕ) : ℚ)) (.fin ((1 : ℕ) : ℚ))
        ((oneRowStore.products.drop ((1 - 1) * 10)).take 10)⟩
    ∧ ((oneRowStore.products.drop ((1 - 1) * 10)).take 10).length ≤ 10 :=
  list_pagination_contract oneRowStore (some "1") (some "10") 1 10 rfl
    (by rfl) (by rfl) (by norm_num) (by norm_num)

end ProductBackend
